import Mathlib

/-!
# Verification of the Order & Inventory Consistency Engine

Shallow embedding of the order/inventory core of `src/server/index.js`
(an Express marketplace server).  The in-memory snapshot loaded from
`data.json` (accounts / items / orders) is modelled by `Snapshot`; each
HTTP handler is a pure function from a snapshot and the request-body
fields to `Except String (Snapshot × result)` — returning `.error msg`
exactly where the handler responds with an error JSON and performs no
mutation, and `.ok` with the saved snapshot otherwise.

Modelling conventions:
* JS numbers appearing in `stock` and `quantity` are modelled by `ℤ`:
  the only operations the server applies to them are `+`, `-` and `<`,
  which are exact on integers, and the values in `data.json` are
  integers (`NaN`/`Infinity`/fractional request payloads are out of
  scope).  Ids are `Nat`.
* Optional request-body fields are `Option` parameters; JS destructuring
  defaults (`username = 'guest'`, `quantity = 1`, …) are applied with
  `Option.getD` at the top of each function.  JS truthiness of a string
  is "nonempty"; of a number, "nonzero".
* `bcrypt.compareSync password hash` is an abstract parameter
  `verify : String → String → Bool`.
* `Math.random`-based token generation is parametrised by the stream of
  character choices `rand : Fin 24 → Fin 36`.
* Timestamp fields (`createdAt`, `canceledAt`), the item's `price`,
  `description` and `image`, and the order's float-rounded `amount`
  field (`+(price*quantity).toFixed(2)`) are omitted: no claim under
  verification concerns them, they feed no modelled computation, and
  the latter two (wall-clock time, IEEE-754 rounding) are outside the
  embedding.
* `data.json` arrays may in principle hold duplicate ids; JS `find`
  returns the first match and the handlers mutate that object in place,
  which `List.find?` together with `updateFirst` reproduces.
-/

/-! ## Data model, embedded server operations and concrete runs -/

structure Account where
  username : String
  fullName : String
  passwordHash : Option String
  deriving Repr, DecidableEq

structure Item where
  id : Nat
  name : String
  stock : ℤ
  active : Bool
  deriving Repr, DecidableEq

structure Order where
  id : Nat
  itemId : Nat
  itemName : String
  username : String
  buyerName : String
  quantity : ℤ
  status : String
  arrivalDate : Option String
  cancelToken : Option String
  deriving Repr, DecidableEq

structure Snapshot where
  accounts : List Account
  items : List Item
  orders : List Order
  deriving Repr, DecidableEq

/-- JS `String.prototype.toLowerCase()` as the server uses it
(case-normalizing usernames): char-by-char lowering, same mapping as
`String.toLower` but by structural recursion over the character list so
that concrete instances reduce in the kernel. -/
def toLowerCase (s : String) : String :=
  String.mk (s.toList.map Char.toLower)

/-- JS `String.prototype.trim()`: strip leading and trailing whitespace
(structural recursion over the character list). -/
def trimString (s : String) : String :=
  String.mk
    (((s.toList.dropWhile Char.isWhitespace).reverse.dropWhile
      Char.isWhitespace).reverse)

/-- In-place mutation of the object returned by `Array.prototype.find`:
replace the first element satisfying `p` by its image under `g`. -/
def updateFirst (p : α → Bool) (g : α → α) : List α → List α
  | [] => []
  | x :: xs => if p x then g x :: xs else x :: updateFirst p g xs

/-- Helper `nextId(array)`: `1` on an empty array, otherwise
`Math.max(...array.map(a => a.id || 0)) + 1`. -/
def nextId (ids : List Nat) : Nat :=
  if ids = [] then 1 else ids.foldl max 0 + 1

/-- The 36-symbol alphabet `"abcdefghijklmnopqrstuvwxyz0123456789"` used
by `generateCancelToken`. -/
def tokenAlphabet : List Char :=
  "abcdefghijklmnopqrstuvwxyz0123456789".toList

/-- Helper `generateCancelToken()`: a 24-character string, each character drawn
from `tokenAlphabet`; the `Math.floor(Math.random()*36)` draws are the
parameter `rand`. -/
def generateCancelToken (rand : Fin 24 → Fin 36) : String :=
  String.mk ((List.finRange 24).map fun i =>
    tokenAlphabet.get
      (Fin.cast (show (36 : Nat) = tokenAlphabet.length by decide) (rand i)))

/-- Auth helper `checkAdminCredentials(username, password)` over a snapshot, with
`bcrypt.compareSync` abstracted as `verify password hash`. -/
def checkAdminCredentials (verify : String → String → Bool) (data : Snapshot)
    (username password : String) : Bool :=
  if username = "" || password = "" then false
  else if toLowerCase username != "admin" then false
  else
    match data.accounts.find? fun a =>
        a.username != "" && toLowerCase a.username == "admin" with
    | none => false
    | some admin =>
      match admin.passwordHash with
      | none => false
      | some h => if h = "" then false else verify password h

/-- Handler `POST /api/order`.  Body fields `{ username = 'guest', buyerFullName,
itemId, quantity = 1 }`; returns the saved snapshot and the created order,
or the handler's error message. -/
def placeOrder (rand : Fin 24 → Fin 36) (data : Snapshot)
    (username buyerFullName : Option String) (itemId : Option Nat)
    (quantity : Option ℤ) : Except String (Snapshot × Order) :=
  let username := username.getD "guest"
  let quantity := quantity.getD 1
  -- `if (!itemId)` — absent or 0 is falsy
  match itemId with
  | none => .error "No itemId provided"
  | some iid =>
    if iid = 0 then .error "No itemId provided"
    else
      match data.items.find? fun it => it.id == iid && it.active with
      | none => .error "Item not found"
      | some item =>
        if item.stock < quantity then .error "Not enough stock"
        else
          -- determine buyer name
          let buyerNameRes : Except String String :=
            if username != "" && toLowerCase username != "guest" then
              match data.accounts.find? fun a =>
                  toLowerCase a.username == toLowerCase username with
              | some acc =>
                .ok (if acc.fullName != "" then acc.fullName else acc.username)
              | none => .ok username
            else
              match buyerFullName with
              | none => .error "Full name required for guest purchases"
              | some b =>
                if b = "" || (trimString b).length < 2 then
                  .error "Full name required for guest purchases"
                else .ok (trimString b)
          match buyerNameRes with
          | .error e => .error e
          | .ok buyerName =>
            -- decrement stock (reserve)
            let items' := updateFirst (fun it => it.id == iid && it.active)
              (fun it => { it with stock := it.stock - quantity }) data.items
            let ordUsername :=
              if username != "" && toLowerCase username != "guest" then username
              else "guest"
            let order : Order :=
              { id := nextId (data.orders.map Order.id)
                itemId := item.id
                itemName := item.name
                username := ordUsername
                buyerName := buyerName
                quantity := quantity
                status := "processing"
                arrivalDate := none
                cancelToken :=
                  if ordUsername == "" || toLowerCase ordUsername == "guest" then
                    some (generateCancelToken rand)
                  else none }
            .ok ({ data with items := items', orders := data.orders ++ [order] },
                 order)

/-- The guest-capability check of `POST /api/cancel-order`:
`cancelToken && ord.cancelToken && cancelToken === ord.cancelToken`
(JS truthiness: an absent or empty token never matches). -/
def tokenMatches (supplied stored : Option String) : Bool :=
  match supplied, stored with
  | some t, some u => t != "" && u != "" && t == u
  | _, _ => false

/-- Handler `POST /api/cancel-order`.  Body fields
`{ orderId, username = '', password = '', cancelToken }`. -/
def cancelOrder (verify : String → String → Bool) (data : Snapshot)
    (orderId : Option Nat) (username password : String)
    (cancelToken : Option String) : Except String (Snapshot × Order) :=
  match orderId with
  | none => .error "orderId required"
  | some oid =>
    if oid = 0 then .error "orderId required"
    else
      match data.orders.find? fun o => o.id == oid with
      | none => .error "Order not found"
      | some ord =>
        if ord.status == "canceled" then .error "Order already canceled"
        else
          let authorized :=
            (username != "" && password != ""
              && toLowerCase username == "admin"
              && checkAdminCredentials verify data username password)
            || (username != "" && ord.username != ""
              && toLowerCase ord.username != "guest"
              && toLowerCase username == toLowerCase ord.username)
            || tokenMatches cancelToken ord.cancelToken
          if !authorized then .error "Not authorized to cancel this order"
          else
            -- perform cancellation and restore stock if item exists
            let items' :=
              match data.items.find? fun i => i.id == ord.itemId with
              | some _ => updateFirst (fun i => i.id == ord.itemId)
                  (fun i => { i with stock := i.stock + ord.quantity })
                  data.items
              | none => data.items
            let ord' := { ord with status := "canceled" }
            let orders' := updateFirst (fun o => o.id == oid)
              (fun o => { o with status := "canceled" }) data.orders
            .ok ({ data with items := items', orders := orders' }, ord')

/-- Handler `POST /api/admin/update-arrival` (after the `checkAdmin` guard).
`ord.arrivalDate = arrivalDate || null; ord.status = arrivalDate ?
'scheduled' : 'processing'` — note: no check that the order is canceled. -/
def updateArrival (verify : String → String → Bool) (data : Snapshot)
    (username password : String) (orderId : Option Nat)
    (arrivalDate : Option String) : Except String (Snapshot × Order) :=
  if !checkAdminCredentials verify data username password then
    .error "Admin authentication required (username & password)"
  else
    match orderId with
    | none => .error "Order not found"
    | some oid =>
      match data.orders.find? fun o => o.id == oid with
      | none => .error "Order not found"
      | some ord =>
        -- `arrivalDate || null`: empty string is falsy
        let a := match arrivalDate with
          | none => none
          | some s => if s = "" then none else some s
        let st := match a with | none => "processing" | some _ => "scheduled"
        let ord' := { ord with arrivalDate := a, status := st }
        let orders' := updateFirst (fun o => o.id == oid)
          (fun o => { o with arrivalDate := a, status := st }) data.orders
        .ok ({ data with orders := orders' }, ord')

/-- The guard of the takedown cascade:
`o.itemId === item.id && o.status !== 'canceled'`. -/
def liveFor (iid : Nat) (o : Order) : Bool :=
  o.itemId == iid && o.status != "canceled"

/-- The `data.orders.forEach` cascade of `POST /api/admin/takedown-item`:
threads the item's `stock` and the `canceledCount` through the order list,
canceling every order of the item whose status is not already
`"canceled"` and restoring its quantity. -/
def cascade (iid : Nat) : List Order → ℤ → Nat → (List Order × ℤ × Nat)
  | [], stock, count => ([], stock, count)
  | o :: rest, stock, count =>
    if liveFor iid o then
      let r := cascade iid rest (stock + o.quantity) (count + 1)
      ({ o with status := "canceled" } :: r.1, r.2)
    else
      let r := cascade iid rest stock count
      (o :: r.1, r.2)

/-- Handler `POST /api/admin/takedown-item` (after the `checkAdmin` guard inlined):
sets `active = false` on the item, cancels its live orders restoring their
stock, and returns the canceled-order count. -/
def takedownItem (verify : String → String → Bool) (data : Snapshot)
    (username password : String) (itemId : Option Nat) :
    Except String (Snapshot × Nat) :=
  if !checkAdminCredentials verify data username password then
    .error "Admin authentication required (username & password)"
  else
    match itemId with
    | none => .error "Item not found"
    | some iid =>
      match data.items.find? fun i => i.id == iid with
      | none => .error "Item not found"
      | some item =>
        let r := cascade item.id data.orders item.stock 0
        let items' := updateFirst (fun i => i.id == iid)
          (fun i => { i with active := false, stock := r.2.1 }) data.items
        .ok ({ data with items := items', orders := r.1 }, r.2.2)

/-- A constant random stream (every token character comes out `'a'`) for
concrete runs. -/
def constRand : Fin 24 → Fin 36 := fun _ => 0

/-- A credential verifier accepting exactly the pair
`("secret", "HASH")` — the abstract stand-in for one bcrypt hash. -/
def demoVerify : String → String → Bool :=
  fun p h => p == "secret" && h == "HASH"

/-- A credential verifier rejecting everything. -/
def noVerify : String → String → Bool := fun _ _ => false

/-- One active item, id 1, stock 0, no accounts, no orders. -/
def emptyStockSnap : Snapshot :=
  { accounts := []
    items := [{ id := 1, name := "Widget", stock := 0, active := true }]
    orders := [] }

/-- The final stock of item 1 after the request sequence
`placeOrder(username "alice", qty −1)`, `placeOrder(username "bob",
qty 1)`, `cancelOrder(order 1, username "alice")` starting from
`emptyStockSnap` (stock 0). -/
def unvalidatedQuantityRunStock : ℤ :=
  match
    (placeOrder constRand emptyStockSnap (some "alice") none (some 1)
        (some (-1))).bind fun p1 =>
    (placeOrder constRand p1.1 (some "bob") none (some 1) (some 1)).bind
      fun p2 =>
    (cancelOrder noVerify p2.1 (some 1) "alice" "" none).bind fun p3 =>
    match p3.1.items.find? fun it => it.id == 1 with
    | some it => Except.ok it.stock
    | none => Except.error "item vanished"
  with
  | .ok q => q
  | .error _ => 0

/-- One active item, id 1, stock 5, no accounts, no orders. -/
def fiveStockSnap : Snapshot :=
  { accounts := []
    items := [{ id := 1, name := "Widget", stock := 5, active := true }]
    orders := [] }

/-- Running `POST /api/order` with quantity −3 (not a positive integer)
against `fiveStockSnap`. -/
def invalidQuantityDemo : Except String (Snapshot × Order) :=
  placeOrder constRand fiveStockSnap (some "alice") none (some 1) (some (-3))

/-- An admin account plus a single already-canceled order (id 1). -/
def canceledOrderSnap : Snapshot :=
  { accounts := [{ username := "admin", fullName := "Admin",
                   passwordHash := some "HASH" }]
    items := [{ id := 1, name := "Widget", stock := 5, active := true }]
    orders := [{ id := 1, itemId := 1, itemName := "Widget",
                 username := "guest", buyerName := "Ann Lee", quantity := 2,
                 status := "canceled", arrivalDate := none,
                 cancelToken := some "tok123" }] }

/-- Admin sets an arrival date on the already-canceled order 1. -/
def reviveDemo : Except String (Snapshot × Order) :=
  updateArrival demoVerify canceledOrderSnap "admin" "secret" (some 1)
    (some "2026-01-01")

/-- A snapshot whose only order (id 1) is already canceled. -/
def alreadyCanceledOrder : Order :=
  { id := 1, itemId := 1, itemName := "Widget", username := "guest",
    buyerName := "Ann Lee", quantity := 2, status := "canceled",
    arrivalDate := none, cancelToken := some "tok123" }

def alreadyCanceledSnap : Snapshot :=
  { accounts := []
    items := [{ id := 1, name := "Widget", stock := 5, active := true }]
    orders := [alreadyCanceledOrder] }

/-- A live guest order (id 1, token `"realtoken"`) for the C8 witness. -/
def liveGuestOrder : Order :=
  { id := 1, itemId := 1, itemName := "Widget", username := "guest",
    buyerName := "Ann Lee", quantity := 2, status := "processing",
    arrivalDate := none, cancelToken := some "realtoken" }

def liveGuestSnap : Snapshot :=
  { accounts := []
    items := [{ id := 1, name := "Widget", stock := 3, active := true }]
    orders := [liveGuestOrder] }

/-- A concrete successful guest order (quantity 2 against stock 5) for
the C7 witness. -/
def guestPlaceDemo : Except String (Snapshot × Order) :=
  placeOrder constRand fiveStockSnap (some "guest") (some "Ann Lee")
    (some 1) (some 2)

def guestPlaceSnap : Snapshot :=
  match guestPlaceDemo with
  | .ok p => p.1
  | .error _ => fiveStockSnap

def guestPlacedOrder : Order :=
  match guestPlaceDemo with
  | .ok p => p.2
  | .error _ => alreadyCanceledOrder

/-- Snapshot with one canceled order (id 1) and one live order (id 2,
owner "bob"), both for item 1. -/
def mixedOrdersSnap : Snapshot :=
  { accounts := [{ username := "admin", fullName := "Admin",
                   passwordHash := some "HASH" }]
    items := [{ id := 1, name := "Widget", stock := 3, active := true }]
    orders := [{ id := 1, itemId := 1, itemName := "Widget",
                 username := "guest", buyerName := "Ann Lee", quantity := 2,
                 status := "canceled", arrivalDate := none,
                 cancelToken := some "tok123" },
               { id := 2, itemId := 1, itemName := "Widget",
                 username := "bob", buyerName := "Bob B", quantity := 1,
                 status := "processing", arrivalDate := none,
                 cancelToken := none }] }

def ownerCancelDemo : Except String (Snapshot × Order) :=
  cancelOrder demoVerify mixedOrdersSnap (some 2) "bob" "" none

def ownerCancelSnap : Snapshot :=
  match ownerCancelDemo with
  | .ok p => p.1
  | .error _ => mixedOrdersSnap

def ownerCancelOrd : Order :=
  match ownerCancelDemo with
  | .ok p => p.2
  | .error _ => alreadyCanceledOrder

def takedownDemo : Except String (Snapshot × Nat) :=
  takedownItem demoVerify mixedOrdersSnap "admin" "secret" (some 1)

def takedownDemoSnap : Snapshot :=
  match takedownDemo with
  | .ok p => p.1
  | .error _ => mixedOrdersSnap

def takedownDemoCount : Nat :=
  match takedownDemo with
  | .ok p => p.2
  | .error _ => 0

/-- Two items and four orders: item 1 has one processing order (qty 2),
one canceled order (qty 3) and one scheduled order (qty 4); item 2 has an
unrelated processing order. -/
def takedownRichSnap : Snapshot :=
  { accounts := [{ username := "admin", fullName := "Admin",
                   passwordHash := some "HASH" }]
    items := [{ id := 1, name := "Widget", stock := 2, active := true },
              { id := 2, name := "Scarf", stock := 7, active := true }]
    orders := [{ id := 1, itemId := 1, itemName := "Widget",
                 username := "bob", buyerName := "Bob B", quantity := 2,
                 status := "processing", arrivalDate := none,
                 cancelToken := none },
               { id := 2, itemId := 1, itemName := "Widget",
                 username := "guest", buyerName := "Ann Lee", quantity := 3,
                 status := "canceled", arrivalDate := none,
                 cancelToken := some "tok9" },
               { id := 3, itemId := 2, itemName := "Scarf",
                 username := "guest", buyerName := "Cay Dee", quantity := 5,
                 status := "processing", arrivalDate := none,
                 cancelToken := some "tok8" },
               { id := 4, itemId := 1, itemName := "Widget",
                 username := "dana", buyerName := "Dana D", quantity := 4,
                 status := "scheduled", arrivalDate := some "2026-01-01",
                 cancelToken := none }] }

/-- The order record `POST /api/order` constructs on the guest path
(buyer name from the trimmed `buyerFullName`, fresh cancel token). -/
def guestOrderOf (rand : Fin 24 → Fin 36) (data : Snapshot) (item : Item)
    (bfn : String) (q : ℤ) : Order :=
  { id := nextId (data.orders.map Order.id)
    itemId := item.id
    itemName := item.name
    username := "guest"
    buyerName := trimString bfn
    quantity := q
    status := "processing"
    arrivalDate := none
    cancelToken := some (generateCancelToken rand) }

/-- The snapshot saved by `POST /api/order` on the guest path. -/
def guestPlaceSnapOf (rand : Fin 24 → Fin 36) (data : Snapshot)
    (iid : Nat) (item : Item) (bfn : String) (q : ℤ) : Snapshot :=
  { accounts := data.accounts
    items := updateFirst (fun it => it.id == iid && it.active)
      (fun it => { it with stock := it.stock - q }) data.items
    orders := data.orders ++ [guestOrderOf rand data item bfn q] }

/-- The order record `POST /api/order` constructs for a non-guest
username with no matching account: buyer name falls back to the raw
username and no cancel token is minted. -/
def namedOrderOf (data : Snapshot) (item : Item) (u : String)
    (q : ℤ) : Order :=
  { id := nextId (data.orders.map Order.id)
    itemId := item.id
    itemName := item.name
    username := u
    buyerName := u
    quantity := q
    status := "processing"
    arrivalDate := none
    cancelToken := none }

/-- The snapshot saved by `POST /api/order` on that path. -/
def namedPlaceSnapOf (data : Snapshot) (iid : Nat) (item : Item)
    (u : String) (q : ℤ) : Snapshot :=
  { accounts := data.accounts
    items := updateFirst (fun it => it.id == iid && it.active)
      (fun it => { it with stock := it.stock - q }) data.items
    orders := data.orders ++ [namedOrderOf data item u q] }

/-! ## Properties -/

theorem updateFirst_length (p : α → Bool) (g : α → α) (l : List α) :
    (updateFirst p g l).length = l.length := by
  induction l with
  | nil => rfl
  | cons a l ih =>
    by_cases hp : p a <;> simp [updateFirst, hp, ih]

/-- Decomposition of a successful `find?` together with the effect of
`updateFirst` for the same predicate: the list splits at the first match
and only that element is rewritten. -/
theorem find?_updateFirst_decomp (p : α → Bool) (g : α → α) (l : List α)
    (x : α) (h : l.find? p = some x) :
    ∃ l₁ l₂, l = l₁ ++ x :: l₂ ∧ (∀ y ∈ l₁, p y = false) ∧
      updateFirst p g l = l₁ ++ g x :: l₂ := by
  induction l with
  | nil => simp [List.find?] at h
  | cons a l ih =>
    by_cases hp : p a
    · rw [List.find?_cons_of_pos _ hp] at h
      obtain rfl : a = x := by injection h
      exact ⟨[], l, rfl, by simp, by simp [updateFirst, hp]⟩
    · rw [List.find?_cons_of_neg _ hp] at h
      obtain ⟨l₁, l₂, hl, h₁, hu⟩ := ih h
      refine ⟨a :: l₁, l₂, by simp [hl], ?_, by simp [updateFirst, hp, hu]⟩
      intro y hy
      rcases List.mem_cons.mp hy with rfl | hy
      · simpa using hp
      · exact h₁ y hy

/-- A `find?` skips a prefix on which the predicate is everywhere false. -/
theorem find?_append_of_forall_neg (q : α → Bool) (l₁ l₂ : List α)
    (h : ∀ y ∈ l₁, q y = false) : (l₁ ++ l₂).find? q = l₂.find? q := by
  induction l₁ with
  | nil => rfl
  | cons a l ih =>
    rw [List.cons_append, List.find?_cons_of_neg _ (by simpa using h a (by simp))]
    exact ih fun y hy => h y (by simp [hy])

theorem le_foldl_max (l : List Nat) (a : Nat) : a ≤ l.foldl max a := by
  induction l generalizing a with
  | nil => exact Nat.le_refl a
  | cons b l ih => exact le_trans (Nat.le_max_left a b) (ih (max a b))

theorem mem_le_foldl_max (l : List Nat) (a : Nat) :
    ∀ x ∈ l, x ≤ l.foldl max a := by
  induction l generalizing a with
  | nil => intro x hx; simp at hx
  | cons b l ih =>
    intro x hx
    rcases List.mem_cons.mp hx with rfl | hx
    · exact le_trans (Nat.le_max_right a x) (le_foldl_max l (max a x))
    · exact ih (max a b) x hx

theorem lt_nextId (ids : List Nat) : ∀ x ∈ ids, x < nextId ids := by
  intro x hx
  unfold nextId
  split
  · simp_all
  · exact Nat.lt_succ_of_le (mem_le_foldl_max ids 0 x hx)

theorem nextId_ne_zero (ids : List Nat) : nextId ids ≠ 0 := by
  unfold nextId
  split
  · simp
  · simp

theorem cascade_orders (iid : Nat) (l : List Order) (s : ℤ) (c : Nat) :
    (cascade iid l s c).1
      = l.map fun o =>
          if liveFor iid o then { o with status := "canceled" } else o := by
  induction l generalizing s c with
  | nil => rfl
  | cons o l ih =>
    cases hl : liveFor iid o <;> simp [cascade, hl, ih]

theorem cascade_stock (iid : Nat) (l : List Order) (s : ℤ) (c : Nat) :
    (cascade iid l s c).2.1
      = s + ((l.filter (liveFor iid)).map Order.quantity).sum := by
  induction l generalizing s c with
  | nil => simp [cascade]
  | cons o l ih =>
    cases hl : liveFor iid o <;>
      simp [cascade, hl, ih, List.filter_cons] ; ring

theorem cascade_count (iid : Nat) (l : List Order) (s : ℤ) (c : Nat) :
    (cascade iid l s c).2.2 = c + (l.filter (liveFor iid)).length := by
  induction l generalizing s c with
  | nil => simp [cascade]
  | cons o l ih =>
    cases hl : liveFor iid o <;>
      simp [cascade, hl, ih, List.filter_cons] ; omega

theorem generateCancelToken_length (rand : Fin 24 → Fin 36) :
    (generateCancelToken rand).length = 24 := by
  simp [generateCancelToken, String.length]

theorem generateCancelToken_mem (rand : Fin 24 → Fin 36) :
    ∀ c ∈ (generateCancelToken rand).toList, c ∈ tokenAlphabet := by
  intro c hc
  simp only [generateCancelToken, String.toList, List.mem_map] at hc
  obtain ⟨i, _, rfl⟩ := hc
  exact List.get_mem _ _ _

theorem generateCancelToken_mem_data (rand : Fin 24 → Fin 36) :
    ∀ c ∈ (generateCancelToken rand).data, c ∈ tokenAlphabet :=
  generateCancelToken_mem rand

theorem generateCancelToken_ne_empty (rand : Fin 24 → Fin 36) :
    generateCancelToken rand ≠ "" := by
  intro h
  have := generateCancelToken_length rand
  rw [h] at this
  simp [String.length] at this

/-- C1 (code bug): the claim "for every item, `stock ≥ 0` holds after
any sequence of reserve/restore operations, starting from non-negative
stock" fails on the code.  `POST /api/order` never validates that the
quantity is a positive number, so the sequence: order quantity −1 as
"alice" (stock 0 → 1), order quantity 1 as "bob" (stock 1 → 0), cancel
alice's order (stock 0 + (−1)) drives the item's stock to −1 using only
reserve/restore operations. -/
theorem quantity_unvalidated_drives_stock_negative :
    unvalidatedQuantityRunStock = -1 ∧ unvalidatedQuantityRunStock < 0 := by
  decide

/-- C2 (code bug): the claim "a quantity that is not a positive
integer fails with `InvalidQuantity` and no state is mutated" fails on
the code: there is no quantity validation at all in `POST /api/order`.
Requesting quantity −3 succeeds, creates an order with quantity −3, and
mutates the item's stock from 5 to 8. -/
theorem invalid_quantity_accepted_and_mutates :
    (invalidQuantityDemo.toOption.map fun p =>
        (p.2.quantity, p.1.items.map Item.stock, p.1.orders.length))
      = some (-3, [8], 1) := by
  decide

/-- C5 counterexample: "the status `canceled` is terminal: no
operation (including the admin arrival-date update) ever changes an
order's status away from `canceled`" is false:
`POST /api/admin/update-arrival` on a canceled order sets its status to
`"scheduled"` without checking for cancellation. -/
theorem update_arrival_revives_canceled_order :
    ((canceledOrderSnap.orders.find? fun o => o.id == 1).map Order.status
        = some "canceled") ∧
    (reviveDemo.toOption.map fun p =>
        (p.2.status, (p.1.orders.find? fun o => o.id == 1).map Order.status))
      = some ("scheduled", some "scheduled") := by
  constructor
  · decide
  · decide

/-- C6: for every order whose status is already `"canceled"`, a
cancel request returns the `AlreadyCanceled` error (`"Order already
canceled"`); since the handler returns before any mutation, no state
changes and in particular the item's stock is not restored a second
time. -/
theorem cancel_already_canceled_errors (verify : String → String → Bool)
    (data : Snapshot) (oid : Nat) (username password : String)
    (cancelToken : Option String) (ord : Order)
    (hoid : oid ≠ 0)
    (hfind : data.orders.find? (fun o => o.id == oid) = some ord)
    (hst : ord.status = "canceled") :
    cancelOrder verify data (some oid) username password cancelToken
      = .error "Order already canceled" := by
  simp [cancelOrder, hoid, hfind, hst]

theorem cancel_already_canceled_errors_witness :
    cancelOrder noVerify alreadyCanceledSnap (some 1) "" "" (some "tok123")
      = .error "Order already canceled" :=
  cancel_already_canceled_errors noVerify alreadyCanceledSnap 1 "" ""
    (some "tok123") alreadyCanceledOrder (by decide) (by decide) (by decide)

/-- C9: for every active item and every requested quantity strictly
greater than the item's stock, `POST /api/order` returns the
`InsufficientStock` error (`"Not enough stock"`); the check precedes
every mutation, so the stock is unchanged and no order is created. -/
theorem insufficient_stock_rejected (rand : Fin 24 → Fin 36)
    (data : Snapshot) (username buyerFullName : Option String)
    (iid : Nat) (q : ℤ) (item : Item)
    (hiid : iid ≠ 0)
    (hfind : data.items.find? (fun it => it.id == iid && it.active)
      = some item)
    (hq : item.stock < q) :
    placeOrder rand data username buyerFullName (some iid) (some q)
      = .error "Not enough stock" := by
  simp [placeOrder, hiid, hfind, hq]

theorem insufficient_stock_rejected_witness :
    placeOrder constRand fiveStockSnap (some "guest") (some "Ann Lee")
      (some 1) (some 6) = .error "Not enough stock" :=
  insufficient_stock_rejected constRand fiveStockSnap (some "guest")
    (some "Ann Lee") 1 6 { id := 1, name := "Widget", stock := 5, active := true }
    (by decide) (by decide) (by decide)

theorem tokenMatches_eq_false {t1 t2 : Option String} (h : t1 ≠ t2) :
    tokenMatches t1 t2 = false := by
  unfold tokenMatches
  match t1, t2 with
  | none, _ => rfl
  | some t, none => rfl
  | some t, some u =>
    have ht : t ≠ u := fun hh => h (by rw [hh])
    simp [ht]

theorem tokenMatches_self {t : String} (h : t ≠ "") :
    tokenMatches (some t) (some t) = true := by
  simp [tokenMatches, h]

/-- C8: for every existing non-canceled order, a cancel request whose
supplied token differs from the order's `cancelToken`, whose principal
fails the admin credential check, and whose principal does not match a
non-guest owner username, returns the `NotAuthorized` error
(`"Not authorized to cancel this order"`); the handler returns before
any mutation, so the order and the item's stock are unchanged. -/
theorem unauthorized_cancel_rejected (verify : String → String → Bool)
    (data : Snapshot) (oid : Nat) (username password : String)
    (token : Option String) (ord : Order)
    (hoid : oid ≠ 0)
    (hfind : data.orders.find? (fun o => o.id == oid) = some ord)
    (hst : ord.status ≠ "canceled")
    (hadmin : checkAdminCredentials verify data username password = false)
    (howner : toLowerCase ord.username = "guest"
      ∨ toLowerCase username ≠ toLowerCase ord.username)
    (htoken : token ≠ ord.cancelToken) :
    cancelOrder verify data (some oid) username password token
      = .error "Not authorized to cancel this order" := by
  rcases howner with h | h <;>
    simp [cancelOrder, hoid, hfind, hst, hadmin, h,
      tokenMatches_eq_false htoken]

theorem unauthorized_cancel_rejected_witness :
    cancelOrder noVerify liveGuestSnap (some 1) "mallory" "x" (some "wrong")
      = .error "Not authorized to cancel this order" :=
  unauthorized_cancel_rejected noVerify liveGuestSnap 1 "mallory" "x"
    (some "wrong") liveGuestOrder (by decide) (by decide) (by decide)
    (by decide) (Or.inl (by decide)) (by decide)

theorem toLowerCase_guest : toLowerCase "guest" = "guest" := by decide

/-- If a username does not lowercase to `"guest"`, it is not `"guest"`. -/
theorem ne_guest_of_toLowerCase_ne {u : String}
    (h : toLowerCase u ≠ "guest") : u ≠ "guest" :=
  fun hg => h (by rw [hg]; exact toLowerCase_guest)

/-- C7: every order created by `POST /api/order` carries a
`cancelToken` exactly when its `username` is `"guest"`; when present the
token is a 24-character string over the 36-symbol alphabet of lowercase
letters and digits. -/
theorem cancel_token_iff_guest (rand : Fin 24 → Fin 36) (data : Snapshot)
    (username buyerFullName : Option String) (itemId : Option Nat)
    (quantity : Option ℤ) (s : Snapshot) (o : Order)
    (hok : placeOrder rand data username buyerFullName itemId quantity
      = .ok (s, o)) :
    (o.cancelToken.isSome ↔ o.username = "guest") ∧
    ∀ t, o.cancelToken = some t →
      t.length = 24 ∧ ∀ c ∈ t.toList, c ∈ tokenAlphabet := by
  unfold placeOrder at hok
  dsimp only at hok
  repeat' split at hok
  any_goals exact Except.noConfusion hok
  all_goals injection hok with h
  all_goals injection h with hs hB
  all_goals subst hB
  all_goals
    simp_all [toLowerCase_guest, ne_guest_of_toLowerCase_ne,
      generateCancelToken_length, generateCancelToken_mem_data]
  all_goals exact generateCancelToken_mem_data rand

theorem cancel_token_iff_guest_witness :
    (guestPlacedOrder.cancelToken.isSome ↔
      guestPlacedOrder.username = "guest") ∧
    ∀ t, guestPlacedOrder.cancelToken = some t →
      t.length = 24 ∧ ∀ c ∈ t.toList, c ∈ tokenAlphabet :=
  cancel_token_iff_guest constRand fiveStockSnap (some "guest")
    (some "Ann Lee") (some 1) (some 2) guestPlaceSnap guestPlacedOrder
    (by rfl)

/-- C5 (amended): the status `"canceled"` is terminal with respect to
`POST /api/cancel-order` and `POST /api/admin/takedown-item`: whenever
either succeeds, the order list keeps its length and every order that was
already `"canceled"` is still present, completely unchanged.  (The
arrival-date update is the exception established by the counterexample:
it moves a canceled order back to `"scheduled"`/`"processing"`.) -/
theorem canceled_preserved_by_cancel_and_takedown :
    (∀ (verify : String → String → Bool) (data : Snapshot)
        (orderId : Option Nat) (username password : String)
        (cancelToken : Option String) (s' : Snapshot) (o' : Order),
      cancelOrder verify data orderId username password cancelToken
        = .ok (s', o') →
      s'.orders.length = data.orders.length ∧
      ∀ o ∈ data.orders, o.status = "canceled" → o ∈ s'.orders)
  ∧ (∀ (verify : String → String → Bool) (data : Snapshot)
        (itemId : Option Nat) (username password : String)
        (s' : Snapshot) (n : Nat),
      takedownItem verify data username password itemId = .ok (s', n) →
      s'.orders.length = data.orders.length ∧
      ∀ o ∈ data.orders, o.status = "canceled" → o ∈ s'.orders) := by
  constructor
  · intro verify data orderId username password cancelToken s' o' hok
    unfold cancelOrder at hok
    cases orderId with
    | none => exact Except.noConfusion hok
    | some oid =>
      dsimp only at hok
      by_cases h0 : oid = 0
      · rw [if_pos h0] at hok; exact Except.noConfusion hok
      rw [if_neg h0] at hok
      cases hfind : data.orders.find? (fun o => o.id == oid) with
      | none => rw [hfind] at hok; exact Except.noConfusion hok
      | some ord =>
        rw [hfind] at hok
        dsimp only at hok
        by_cases hst : (ord.status == "canceled") = true
        · rw [if_pos hst] at hok; exact Except.noConfusion hok
        rw [if_neg hst] at hok
        split at hok
        · exact Except.noConfusion hok
        injection hok with h
        injection h with hs ho
        subst hs
        refine ⟨updateFirst_length _ _ _, ?_⟩
        intro o ho hoc
        obtain ⟨l₁, l₂, hdec, _, hupd⟩ :=
          find?_updateFirst_decomp (fun o => o.id == oid)
            (fun o => { o with status := "canceled" }) data.orders ord hfind
        show o ∈ updateFirst (fun o => o.id == oid)
          (fun o => { o with status := "canceled" }) data.orders
        rw [hupd]
        rw [hdec] at ho
        rcases List.mem_append.mp ho with h1 | h2
        · exact List.mem_append.mpr (Or.inl h1)
        · rcases List.mem_cons.mp h2 with rfl | h3
          · exact absurd hoc (by simpa using hst)
          · exact List.mem_append.mpr (Or.inr (List.mem_cons_of_mem _ h3))
  · intro verify data itemId username password s' n hok
    unfold takedownItem at hok
    dsimp only at hok
    split at hok
    · exact Except.noConfusion hok
    cases itemId with
    | none => exact Except.noConfusion hok
    | some iid =>
      dsimp only at hok
      cases hfind : data.items.find? (fun i => i.id == iid) with
      | none => rw [hfind] at hok; exact Except.noConfusion hok
      | some item =>
        rw [hfind] at hok
        dsimp only at hok
        injection hok with h
        injection h with hs hn
        subst hs
        constructor
        · show (cascade item.id data.orders item.stock 0).1.length
            = data.orders.length
          rw [cascade_orders]
          exact List.length_map _ _
        · intro o ho hoc
          show o ∈ (cascade item.id data.orders item.stock 0).1
          rw [cascade_orders]
          have hlf : liveFor item.id o = false := by simp [liveFor, hoc]
          have hid : (if liveFor item.id o then
              { o with status := "canceled" } else o) = o := by simp [hlf]
          have hmem := List.mem_map_of_mem (fun o =>
            if liveFor item.id o then { o with status := "canceled" } else o) ho
          dsimp only at hmem
          rwa [hid] at hmem

theorem canceled_preserved_witness :
    (ownerCancelSnap.orders.length = mixedOrdersSnap.orders.length ∧
      ∀ o ∈ mixedOrdersSnap.orders, o.status = "canceled" →
        o ∈ ownerCancelSnap.orders) ∧
    (takedownDemoSnap.orders.length = mixedOrdersSnap.orders.length ∧
      ∀ o ∈ mixedOrdersSnap.orders, o.status = "canceled" →
        o ∈ takedownDemoSnap.orders) :=
  ⟨canceled_preserved_by_cancel_and_takedown.1 demoVerify mixedOrdersSnap
      (some 2) "bob" "" none ownerCancelSnap ownerCancelOrd (by rfl),
   canceled_preserved_by_cancel_and_takedown.2 demoVerify mixedOrdersSnap
      (some 1) "admin" "secret" takedownDemoSnap takedownDemoCount (by rfl)⟩

/-- C4: for an existing item, `POST /api/admin/takedown-item` (with
valid admin credentials) deactivates the item, cancels exactly the orders
of that item whose status was not `"canceled"` (leaving every other
order, in particular the already-canceled ones, untouched), adds exactly
the sum of the canceled orders' quantities to the item's stock, and
reports the number of canceled orders. -/
theorem takedown_cancels_live_orders (verify : String → String → Bool)
    (data : Snapshot) (username password : String) (iid : Nat) (item : Item)
    (hadmin : checkAdminCredentials verify data username password = true)
    (hfind : data.items.find? (fun i => i.id == iid) = some item) :
    ∃ s', takedownItem verify data username password (some iid)
        = .ok (s', (data.orders.filter (liveFor item.id)).length) ∧
      s'.orders = data.orders.map (fun o =>
        if liveFor item.id o then { o with status := "canceled" } else o) ∧
      s'.items.find? (fun i => i.id == iid) = some { item with
        active := false,
        stock := item.stock
          + ((data.orders.filter (liveFor item.id)).map
              Order.quantity).sum } := by
  have hres : takedownItem verify data username password (some iid)
      = .ok
        ({ accounts := data.accounts
           items :=
             updateFirst (fun i => i.id == iid)
               (fun i =>
                 { i with
                   active := false
                   stock := (cascade item.id data.orders item.stock 0).2.1 })
               data.items
           orders := (cascade item.id data.orders item.stock 0).1 },
         (cascade item.id data.orders item.stock 0).2.2) := by
    simp [takedownItem, hadmin, hfind]
  have hcount : (cascade item.id data.orders item.stock 0).2.2
      = (data.orders.filter (liveFor item.id)).length := by
    rw [cascade_count]; simp
  rw [hcount] at hres
  refine ⟨_, hres, ?_, ?_⟩
  · exact cascade_orders item.id data.orders item.stock 0
  · obtain ⟨l₁, l₂, hdec, hneg, hupd⟩ := find?_updateFirst_decomp
      (fun i => i.id == iid)
      (fun i =>
        { i with
          active := false
          stock := (cascade item.id data.orders item.stock 0).2.1 })
      data.items item hfind
    show (updateFirst (fun i => i.id == iid)
      (fun i =>
        { i with
          active := false
          stock := (cascade item.id data.orders item.stock 0).2.1 })
      data.items).find? (fun i => i.id == iid) = _
    rw [hupd, find?_append_of_forall_neg _ _ _ hneg,
      List.find?_cons_of_pos _ (by simpa using List.find?_some hfind)]
    rw [cascade_stock]

theorem takedown_cancels_live_orders_witness :
    ∃ s', takedownItem demoVerify takedownRichSnap "admin" "secret" (some 1)
        = .ok (s', (takedownRichSnap.orders.filter (liveFor 1)).length) ∧
      s'.orders = takedownRichSnap.orders.map (fun o =>
        if liveFor 1 o then { o with status := "canceled" } else o) ∧
      s'.items.find? (fun i => i.id == 1)
        = some { id := 1, name := "Widget"
                 stock := 2 + ((takedownRichSnap.orders.filter
                   (liveFor 1)).map Order.quantity).sum
                 active := false } :=
  takedown_cancels_live_orders demoVerify takedownRichSnap "admin" "secret" 1
    { id := 1, name := "Widget", stock := 2, active := true }
    (by decide) (by decide)

theorem id_ne_nextId (l : List Order) :
    ∀ o ∈ l, (o.id == nextId (l.map Order.id)) = false := by
  intro o ho
  have h := lt_nextId (l.map Order.id) o.id (List.mem_map_of_mem _ ho)
  simp [Nat.ne_of_lt h]

theorem find?_append_new_order (l : List Order) (o : Order)
    (h : ∀ x ∈ l, (x.id == o.id) = false) :
    (l ++ [o]).find? (fun x => x.id == o.id) = some o := by
  rw [find?_append_of_forall_neg _ _ _ h]
  simp [List.find?]

theorem map_nodup_middle {α β : Type} {f : α → β} {l₁ l₂ : List α} {x : α}
    (h : ((l₁ ++ x :: l₂).map f).Nodup) : ∀ y ∈ l₁, f y ≠ f x := by
  intro y hy heq
  rw [List.map_append, List.nodup_append] at h
  exact h.2.2 (List.mem_map_of_mem f hy) (by simp [heq])

/-- Reserving (stock − q on the active item found by `POST /api/order`)
and then restoring (stock + q on the item found by id in
`POST /api/cancel-order`) brings the item list's entry for that id back
to exactly the original item, provided item ids are unique. -/
theorem reserve_then_restore_items (items : List Item) (iid : Nat)
    (item : Item) (q : ℤ)
    (hids : (items.map Item.id).Nodup)
    (hfind : items.find? (fun it => it.id == iid && it.active) = some item) :
    ((updateFirst (fun it => it.id == iid && it.active)
        (fun it => { it with stock := it.stock - q }) items).find?
      (fun i => i.id == item.id)
        = some { item with stock := item.stock - q })
    ∧ (updateFirst (fun i => i.id == item.id)
        (fun i => { i with stock := i.stock + q })
        (updateFirst (fun it => it.id == iid && it.active)
          (fun it => { it with stock := it.stock - q }) items)).find?
      (fun i => i.id == item.id) = some item := by
  obtain ⟨l₁, l₂, hdec, hneg, hupd⟩ := find?_updateFirst_decomp _
    (fun it => { it with stock := it.stock - q }) items item hfind
  have hne : ∀ y ∈ l₁, (y.id == item.id) = false := by
    intro y hy
    have hy2 := map_nodup_middle (f := Item.id) (hdec ▸ hids) y hy
    simp [hy2]
  have h1 : (updateFirst (fun it => it.id == iid && it.active)
      (fun it => { it with stock := it.stock - q }) items).find?
        (fun i => i.id == item.id)
      = some { item with stock := item.stock - q } := by
    rw [hupd, find?_append_of_forall_neg _ _ _ hne]
    simp [List.find?]
  refine ⟨h1, ?_⟩
  obtain ⟨m₁, m₂, hdec2, hneg2, hupd2⟩ := find?_updateFirst_decomp
    (fun i => i.id == item.id)
    (fun i : Item => { i with stock := i.stock + q }) _ _ h1
  rw [hupd2, find?_append_of_forall_neg _ _ _ hneg2]
  rw [List.find?_cons_of_pos _ (by simp)]
  simp [sub_add_cancel]

/-- C3: for every active item and every positive quantity at most
the item's stock (ids unique), a guest `POST /api/order` succeeds, and
immediately canceling the created order with its cancel token succeeds
and restores the item's entry to exactly its pre-order value. -/
theorem place_then_cancel_restores_stock
    (rand : Fin 24 → Fin 36) (verify : String → String → Bool)
    (data : Snapshot) (iid : Nat) (q : ℤ) (item : Item) (bfn : String)
    (hids : (data.items.map Item.id).Nodup)
    (hiid : iid ≠ 0)
    (hfind : data.items.find? (fun it => it.id == iid && it.active)
      = some item)
    (_hq : 0 < q) (hstock : q ≤ item.stock)
    (hbfn : bfn ≠ "") (hbfn2 : 2 ≤ (trimString bfn).length) :
    ∃ s₁ o s₂ o₂,
      placeOrder rand data (some "guest") (some bfn) (some iid) (some q)
        = .ok (s₁, o) ∧
      cancelOrder verify s₁ (some o.id) "" "" o.cancelToken
        = .ok (s₂, o₂) ∧
      s₂.items.find? (fun it => it.id == item.id) = some item := by
  have hno : ¬ item.stock < q := not_lt.mpr hstock
  have hbl : ¬ (trimString bfn).length < 2 := Nat.not_lt.mpr hbfn2
  have hplace : placeOrder rand data (some "guest") (some bfn) (some iid)
      (some q)
      = .ok (guestPlaceSnapOf rand data iid item bfn q,
             guestOrderOf rand data item bfn q) := by
    simp [placeOrder, guestPlaceSnapOf, guestOrderOf, hiid, hfind, hno,
      hbfn, hbl, toLowerCase_guest]
  obtain ⟨h1, h2⟩ := reserve_then_restore_items data.items iid item q
    hids hfind
  have htokne := generateCancelToken_ne_empty rand
  have hfo : (data.orders ++ [guestOrderOf rand data item bfn q]).find?
      (fun x => x.id == nextId (data.orders.map Order.id))
        = some (guestOrderOf rand data item bfn q) :=
    find?_append_new_order data.orders (guestOrderOf rand data item bfn q)
      (id_ne_nextId data.orders)
  have hnone : data.orders.find?
      (fun o => o.id == nextId (data.orders.map Order.id)) = none :=
    List.find?_eq_none.mpr fun x hx => by
      simp [id_ne_nextId data.orders x hx]
  have hcancel : cancelOrder verify
      (guestPlaceSnapOf rand data iid item bfn q)
      (some (nextId (data.orders.map Order.id))) "" ""
      (some (generateCancelToken rand))
      = .ok
        ({ accounts := data.accounts
           items := updateFirst (fun i => i.id == item.id)
             (fun i => { i with stock := i.stock + q })
             (updateFirst (fun it => it.id == iid && it.active)
               (fun it => { it with stock := it.stock - q }) data.items)
           orders := updateFirst
             (fun x => x.id == nextId (data.orders.map Order.id))
             (fun o => { o with status := "canceled" })
             (data.orders ++ [guestOrderOf rand data item bfn q]) },
         { guestOrderOf rand data item bfn q with status := "canceled" }) := by
    simp [cancelOrder, guestPlaceSnapOf, nextId_ne_zero, hfo, hnone,
      guestOrderOf, tokenMatches_self htokne, h1]
  exact ⟨_, _, _, _, hplace, hcancel, h2⟩

theorem place_then_cancel_restores_stock_witness :
    ∃ s₁ o s₂ o₂,
      placeOrder constRand fiveStockSnap (some "guest") (some "Ann Lee")
        (some 1) (some 2) = .ok (s₁, o) ∧
      cancelOrder noVerify s₁ (some o.id) "" "" o.cancelToken
        = .ok (s₂, o₂) ∧
      s₂.items.find? (fun it => it.id == 1)
        = some { id := 1, name := "Widget", stock := 5, active := true } :=
  place_then_cancel_restores_stock constRand noVerify fiveStockSnap 1 2
    { id := 1, name := "Widget", stock := 5, active := true } "Ann Lee"
    (by decide) (by decide) (by decide) (by decide) (by decide) (by decide)
    (by decide)

/-- C10: a `POST /api/order` supplying a non-guest username that
matches no account still succeeds; the created order carries
`username = u` and `buyerName = u` (the raw supplied string) and no
`cancelToken`; consequently a later `POST /api/cancel-order` that merely
supplies the same username string — no password, no token — is
authorized and cancels the order. -/
theorem unknown_username_order_then_cancel
    (rand : Fin 24 → Fin 36) (verify : String → String → Bool)
    (data : Snapshot) (iid : Nat) (q : ℤ) (item : Item) (u : String)
    (hiid : iid ≠ 0)
    (hfind : data.items.find? (fun it => it.id == iid && it.active)
      = some item)
    (hstock : ¬ item.stock < q)
    (hu : u ≠ "") (hug : toLowerCase u ≠ "guest")
    (hacc : data.accounts.find?
      (fun a => toLowerCase a.username == toLowerCase u) = none) :
    ∃ s₁ o,
      placeOrder rand data (some u) none (some iid) (some q)
        = .ok (s₁, o) ∧
      o.username = u ∧ o.buyerName = u ∧ o.cancelToken = none ∧
      ∃ s₂ o₂,
        cancelOrder verify s₁ (some o.id) u "" none = .ok (s₂, o₂) ∧
        o₂.status = "canceled" := by
  have hplace : placeOrder rand data (some u) none (some iid) (some q)
      = .ok (namedPlaceSnapOf data iid item u q,
             namedOrderOf data item u q) := by
    simp [placeOrder, namedPlaceSnapOf, namedOrderOf, hiid, hfind, hstock,
      hu, hug, hacc]
  have hnone : data.orders.find?
      (fun o => o.id == nextId (data.orders.map Order.id)) = none :=
    List.find?_eq_none.mpr fun x hx => by
      simp [id_ne_nextId data.orders x hx]
  refine ⟨_, _, hplace, rfl, rfl, rfl, ?_⟩
  cases hitem : (namedPlaceSnapOf data iid item u q).items.find?
      (fun i => i.id == item.id) with
  | none =>
    have hc : cancelOrder verify (namedPlaceSnapOf data iid item u q)
        (some (nextId (data.orders.map Order.id))) u "" none
        = .ok
          ({ accounts := data.accounts
             items := (namedPlaceSnapOf data iid item u q).items
             orders := updateFirst
               (fun x => x.id == nextId (data.orders.map Order.id))
               (fun o => { o with status := "canceled" })
               (data.orders ++ [namedOrderOf data item u q]) },
           { namedOrderOf data item u q with status := "canceled" }) := by
      simp only [namedPlaceSnapOf] at hitem
      simp [cancelOrder, namedPlaceSnapOf, namedOrderOf, nextId_ne_zero,
        hnone, hu, hug, hitem]
    exact ⟨_, _, hc, rfl⟩
  | some it0 =>
    have hc : cancelOrder verify (namedPlaceSnapOf data iid item u q)
        (some (nextId (data.orders.map Order.id))) u "" none
        = .ok
          ({ accounts := data.accounts
             items := updateFirst (fun i => i.id == item.id)
               (fun i => { i with stock := i.stock + q })
               (namedPlaceSnapOf data iid item u q).items
             orders := updateFirst
               (fun x => x.id == nextId (data.orders.map Order.id))
               (fun o => { o with status := "canceled" })
               (data.orders ++ [namedOrderOf data item u q]) },
           { namedOrderOf data item u q with status := "canceled" }) := by
      simp only [namedPlaceSnapOf] at hitem
      simp [cancelOrder, namedPlaceSnapOf, namedOrderOf, nextId_ne_zero,
        hnone, hu, hug, hitem]
    exact ⟨_, _, hc, rfl⟩

theorem unknown_username_order_then_cancel_witness :
    ∃ s₁ o,
      placeOrder constRand fiveStockSnap (some "charlie") none (some 1)
        (some 2) = .ok (s₁, o) ∧
      o.username = "charlie" ∧ o.buyerName = "charlie" ∧
      o.cancelToken = none ∧
      ∃ s₂ o₂,
        cancelOrder noVerify s₁ (some o.id) "charlie" "" none
          = .ok (s₂, o₂) ∧
        o₂.status = "canceled" :=
  unknown_username_order_then_cancel constRand noVerify fiveStockSnap 1 2
    { id := 1, name := "Widget", stock := 5, active := true } "charlie"
    (by decide) (by decide) (by decide) (by decide) (by decide) (by decide)
